import Mathlib

/-!
Shallow embedding of the device power/state sequencing drivers of this
repository: the OV2710 image-sensor driver (`drivers/media/i2c/ov2710.c`),
the Asus TF700T WUXGA panel driver and the TF700T MIPI bridge driver.

The bus and the power resources are abstracted by oracles: `OvOracle` /
`POracle` fix the outcome of every bus transaction (numbered by a running
transaction counter), of `regulator_bulk_enable` and of
`clk_prepare_enable`.  Every register write, register read, sleep and GPIO
transition performed by the embedded code is recorded in an event trace, so
theorems can speak about which bus I/O a call performed.  Error codes are
the C driver's negative errno values (`-EINVAL` = -22, `-EIO` = -5,
`-EBUSY` = -16, `-ENODEV` = -19).
-/

/-- errno values used by the drivers. `EIOerr` stands for the EIO errno (5). -/
def EINVAL : Int := 22

def EIOerr : Int := 5

def EBUSY : Int := 16

def ENODEV : Int := 19

/-- Observable effects of the embedded code.
`busWrite reg len val`: one `i2c_master_send` register write of `len` payload
bytes (the value actually put on the wire, i.e. `val mod 2^(8*len)`);
`busRead reg len`: one two-message `i2c_transfer` register read;
`xfer addr data`: one four-byte panel/bridge write transaction;
`usleepRange lo hi` / `msleep ms`: blocking delays;
`gpioSet line val`: a `gpiod_set_value` on the given line (line 0 = reset);
`regBulkOn`/`regBulkOff`/`clkOn`/`clkOff`: power-resource transitions. -/
inductive Ev where
  | busWrite (reg len val : Nat)
  | busRead (reg len : Nat)
  | xfer (addr data : Nat)
  | usleepRange (lo hi : Nat)
  | msleep (ms : Nat)
  | gpioSet (line val : Nat)
  | regBulkOn
  | regBulkOff
  | clkOn
  | clkOff
  deriving DecidableEq, Repr

/-- Bus-side state: the running transaction counter and the event trace. -/
structure IoSt where
  tick : Nat
  events : List Ev
  deriving DecidableEq, Repr

/-- Append a non-transaction event (sleep, GPIO, power resource). -/
def IoSt.push (io : IoSt) (e : Ev) : IoSt :=
  { io with events := io.events ++ [e] }

/-- The empty starting trace. -/
def io0 : IoSt := { tick := 0, events := [] }

/-! ## Panel (`wuxga_*`, unnamed part_000) and bridge (`bridge_*`, unnamed part_001) -/

/-- Oracle for the panel/bridge drivers: `xferRet n` is the value
`i2c_transfer` returns for the `n`-th transaction (1 on success, a negative
errno on failure); `adapterPresent` models the `client->adapter` null check. -/
structure POracle where
  adapterPresent : Bool
  xferRet : Nat → Int

/-- One `i2c_transfer` of the 4-byte message `{addr_hi, addr_lo, data_hi,
data_lo}` built by `wuxga_write_reg` / `bridge_write_reg` (both take `u16`
arguments, hence the truncations). -/
def panel_i2c_transfer (o : POracle) (io : IoSt) (addr data : Nat) : Int × IoSt :=
  (o.xferRet io.tick,
   { tick := io.tick + 1, events := io.events ++ [Ev.xfer (addr % 65536) (data % 65536)] })

/-- Maximum count for I2C access retries (`DISPLAY_MAX_RETRIES` in both the
panel and the bridge source). -/
def DISPLAY_MAX_RETRIES : Nat := 3

/-- The `do { err = i2c_transfer(...); if (err < 0) return err; retry++; }
while (retry <= DISPLAY_MAX_RETRIES);` loop of `wuxga_write_reg`: the body
runs once and then `n` more times while no transfer has failed; a transfer
returning a negative value aborts immediately with that value. -/
def wuxga_write_reg_go (o : POracle) (addr data : Nat) : IoSt → Nat → Int × IoSt
  | io, n =>
    let (err, io) := panel_i2c_transfer o io addr data
    if err < 0 then (err, io)
    else
      match n with
      | 0 => (0, io)
      | m + 1 => wuxga_write_reg_go o addr data io m

/-- `wuxga_write_reg` (part_000 lines 66-97). -/
def wuxga_write_reg (o : POracle) (io : IoSt) (addr data : Nat) : Int × IoSt :=
  if !o.adapterPresent then (-ENODEV, io)
  else wuxga_write_reg_go o addr data io DISPLAY_MAX_RETRIES

/-- Modelled from the spec: `DISPLAY_WAIT_MS` is defined in
`panel-asus-tf700t.h`, which is not among the sources; the spec reserves
address 0 as the "delay, not a register" marker, matching the literal 0 the
bridge driver tests for. -/
def DISPLAY_WAIT_MS : Nat := 0

/-- `wuxga_write_table` (part_000 lines 99-116): writes the entry first and
only then, if its address is the wait marker, sleeps for `data`
milliseconds.  The C `err` is uninitialized when `nregs` is 0; the model
returns 0 for the empty table. -/
def wuxga_write_table (o : POracle) : List (Nat × Nat) → IoSt → Int × IoSt
  | [], io => (0, io)
  | (addr, data) :: regs, io =>
    let (err, io) := wuxga_write_reg o io addr data
    if err ≠ 0 then (err, io)
    else
      let io := if addr = DISPLAY_WAIT_MS then io.push (Ev.msleep data) else io
      wuxga_write_table o regs io

/-- The retry loop of `bridge_write_reg` (part_001 lines 161-169); the code
is identical to the panel's loop. -/
def bridge_write_reg_go (o : POracle) (addr data : Nat) : IoSt → Nat → Int × IoSt
  | io, n =>
    let (err, io) := panel_i2c_transfer o io addr data
    if err < 0 then (err, io)
    else
      match n with
      | 0 => (0, io)
      | m + 1 => bridge_write_reg_go o addr data io m

/-- `bridge_write_reg` (part_001 lines 141-172). -/
def bridge_write_reg (o : POracle) (io : IoSt) (addr data : Nat) : Int × IoSt :=
  if !o.adapterPresent then (-ENODEV, io)
  else bridge_write_reg_go o addr data io DISPLAY_MAX_RETRIES

/-- `bridge_write_table` (part_001 lines 174-189): for an entry with address
0 it sleeps for `data` milliseconds and then still writes the entry to the
bus.  `err` is uninitialized in C for the empty table; the model returns 0. -/
def bridge_write_table (o : POracle) : List (Nat × Nat) → IoSt → Int × IoSt
  | [], io => (0, io)
  | (addr, data) :: regs, io =>
    let io := if addr = 0 then io.push (Ev.msleep data) else io
    let (err, io) := bridge_write_reg o io addr data
    if err ≠ 0 then (err, io)
    else bridge_write_table o regs io

/-- `display_table` of the bridge driver (part_001 lines 25-114); the
`(0x0000, ...)` entries are commented "Delay time" in the source. -/
def display_table : List (Nat × Nat) := [
(0x0002, 0x0001),
(0x0000, 0x0005),
(0x0002, 0x0000),
(0x0016, 0x309F),
(0x0018, 0x0203),
(0x0000, 0x0005),
(0x0018, 0x0213),
(0x0006, 0x012C),
(0x0140, 0x0000),
(0x0142, 0x0000),
(0x0144, 0x0000),
(0x0146, 0x0000),
(0x0148, 0x0000),
(0x014A, 0x0000),
(0x014C, 0x0000),
(0x014E, 0x0000),
(0x0150, 0x0000),
(0x0152, 0x0000),
(0x0100, 0x0203),
(0x0102, 0x0000),
(0x0104, 0x0203),
(0x0106, 0x0000),
(0x0108, 0x0203),
(0x010A, 0x0000),
(0x010C, 0x0203),
(0x010E, 0x0000),
(0x0110, 0x0203),
(0x0112, 0x0000),
(0x0210, 0x1964),
(0x0212, 0x0000),
(0x0214, 0x0005),
(0x0216, 0x0000),
(0x0218, 0x2801),
(0x021A, 0x0000),
(0x021C, 0x0000),
(0x021E, 0x0000),
(0x0220, 0x0C06),
(0x0222, 0x0000),
(0x0224, 0x4E20),
(0x0226, 0x0000),
(0x0228, 0x000B),
(0x022A, 0x0000),
(0x022C, 0x0005),
(0x022E, 0x0000),
(0x0230, 0x0005),
(0x0232, 0x0000),
(0x0234, 0x001F),
(0x0236, 0x0000),
(0x0238, 0x0001),
(0x023A, 0x0000),
(0x023C, 0x0005),
(0x023E, 0x0005),
(0x0204, 0x0001),
(0x0206, 0x0000),
(0x0620, 0x0001),
(0x0622, 0x0020),
(0x0624, 0x001A),
(0x0626, 0x04B0),
(0x0628, 0x015E),
(0x062A, 0x00FA),
(0x062C, 0x1680),
(0x0518, 0x0001),
(0x051A, 0x0000),
(0x0500, 0x0086),
(0x0502, 0xA300),
(0x0500, 0x8000),
(0x0502, 0xC300),
(0x0008, 0x0037),
(0x0050, 0x003E),
(0x0032, 0x0001),
(0x0004, 0x0064)
]

/-! ## OV2710 sensor driver -/

/-- `struct reg_value`. -/
structure RegValue where
  reg_addr : Nat
  val : Nat
  deriving DecidableEq, Repr

/-- `struct ov2710_mode_info`. -/
structure ModeInfo where
  name : String
  id : Nat
  width : Nat
  height : Nat
  reg_data : List RegValue
  deriving DecidableEq, Repr

def OV2710_REG_STREAM_CTRL : Nat := 0x3008

def OV2710_REG_STREAM_CTRL_RESET : Nat := 0x80

def OV2710_REG_STREAM_CTRL_SLEEP : Nat := 0x40

def OV2710_REG_R_MANUAL : Nat := 0x3503

def OV2710_REG_GAIN_PK : Nat := 0x350a

def OV2680_REG_EXPOSURE_PK_HIGH : Nat := 0x3500

/-- The source spells this register both `OV2680_...` (its `#define`) and
`OV2710_...` (at the use site in `ov2710_exposure_set`); both denote 0x3500. -/
def OV2710_REG_EXPOSURE_PK_HIGH : Nat := OV2680_REG_EXPOSURE_PK_HIGH

def OV2680_REG_FORMAT1 : Nat := 0x3820

def OV2680_REG_FORMAT2 : Nat := 0x3821

/-- Used (undeclared) in `ov2710_bayer_order` and the flip helpers; the
`#define` in the file is `OV2680_REG_FORMAT1` 0x3820. -/
def OV2710_REG_FORMAT1 : Nat := OV2680_REG_FORMAT1

/-- See `OV2710_REG_FORMAT1`. -/
def OV2710_REG_FORMAT2 : Nat := OV2680_REG_FORMAT2

def OV2680_REG_ISP_CTRL00 : Nat := 0x5080

/-- Used (undeclared) by `ov2710_stream_enable`/`_disable`; the stream
control register the file defines is `OV2710_REG_STREAM_CTRL` 0x3008. -/
def OV2680_REG_STREAM_CTRL : Nat := OV2710_REG_STREAM_CTRL

def V4L2_EXPOSURE_AUTO : Nat := 0

/-- `ov2710_setting_60fps_720P_1280_720`. -/
def ov2710_setting_60fps_720P_1280_720 : List RegValue := List.map (fun p : Nat × Nat => ⟨p.1, p.2⟩) [
(0x3103, 0x93), (0x3008, 0x82), (0x3008, 0x42), (0x3017, 0x7f),
(0x3018, 0xfc), (0x3706, 0x61), (0x3712, 0x0c), (0x3630, 0x6d),
(0x3801, 0xb4), (0x3621, 0x04), (0x3604, 0x60), (0x3603, 0xa7),
(0x3631, 0x26), (0x3600, 0x04), (0x3620, 0x37), (0x3623, 0x00),
(0x3702, 0x9e), (0x3703, 0x5c), (0x3704, 0x40), (0x370d, 0x0f),
(0x3713, 0x9f), (0x3714, 0x4c), (0x3710, 0x9e), (0x3801, 0xc4),
(0x3605, 0x05), (0x3606, 0x3f), (0x302d, 0x90), (0x370b, 0x40),
(0x3716, 0x31), (0x3707, 0x52), (0x380d, 0x74), (0x5181, 0x20),
(0x518f, 0x00), (0x4301, 0xff), (0x4303, 0x00), (0x3a00, 0x78),
(0x300f, 0x88), (0x3011, 0x28), (0x3a1a, 0x06), (0x3a18, 0x00),
(0x3a19, 0x7a), (0x3a13, 0x54), (0x382e, 0x0f), (0x381a, 0x1a),
(0x401d, 0x02), (0x381c, 0x10), (0x381d, 0xb0), (0x381e, 0x02),
(0x381f, 0xec), (0x3800, 0x01), (0x3820, 0x0a), (0x3821, 0x2a),
(0x3804, 0x05), (0x3805, 0x10), (0x3802, 0x00), (0x3803, 0x04),
(0x3806, 0x02), (0x3807, 0xe0), (0x3808, 0x05), (0x3809, 0x10),
(0x380a, 0x02), (0x380b, 0xe0), (0x380e, 0x02), (0x380f, 0xf0),
(0x380c, 0x07), (0x380d, 0x00), (0x3810, 0x10), (0x3811, 0x06),
(0x5688, 0x03), (0x5684, 0x05), (0x5685, 0x00), (0x5686, 0x02),
(0x5687, 0xd0), (0x3a08, 0x1b), (0x3a09, 0xe6), (0x3a0a, 0x17),
(0x3a0b, 0x40), (0x3a0e, 0x01), (0x3a0d, 0x02), (0x3011, 0x0a),
(0x300f, 0x8a), (0x3017, 0x00), (0x3018, 0x00), (0x4800, 0x24),
(0x300e, 0x04), (0x4801, 0x0f), (0x300f, 0xc3), (0x3a0f, 0x40),
(0x3a10, 0x38), (0x3a1b, 0x48), (0x3a1e, 0x30), (0x3a11, 0x90),
(0x3a1f, 0x10), (0x3010, 0x10), (0x3a0e, 0x02), (0x3a0d, 0x03),
(0x3a08, 0x0d), (0x3a09, 0xf3), (0x3a0a, 0x0b), (0x3a0b, 0xa0),
(0x300f, 0xc3), (0x3011, 0x0e), (0x3012, 0x02), (0x380c, 0x07),
(0x380d, 0x6a), (0x3703, 0x5c), (0x3704, 0x40), (0x3801, 0xbc),
(0x3503, 0x17), (0x3500, 0x00), (0x3501, 0x00), (0x3502, 0x00),
(0x350a, 0x00), (0x350b, 0x00), (0x5001, 0x4e), (0x5000, 0x5f),
(0x3008, 0x02)
]

/-- `ov2710_setting_30fps_HD_1920_1080`. -/
def ov2710_setting_30fps_HD_1920_1080 : List RegValue := List.map (fun p : Nat × Nat => ⟨p.1, p.2⟩) [
(0x3103, 0x93), (0x3008, 0x82), (0x3008, 0x42), (0x3017, 0x7f),
(0x3018, 0xfc), (0x3706, 0x61), (0x3712, 0x0c), (0x3630, 0x6d),
(0x3801, 0xb4), (0x3621, 0x04), (0x3604, 0x60), (0x3603, 0xa7),
(0x3631, 0x26), (0x3600, 0x04), (0x3620, 0x37), (0x3623, 0x00),
(0x3702, 0x9e), (0x3703, 0x5c), (0x3704, 0x40), (0x370d, 0x0f),
(0x3713, 0x9f), (0x3714, 0x4c), (0x3710, 0x9e), (0x3801, 0xc4),
(0x3605, 0x05), (0x3606, 0x3f), (0x302d, 0x90), (0x370b, 0x40),
(0x3716, 0x31), (0x3707, 0x52), (0x380d, 0x74), (0x5181, 0x20),
(0x518f, 0x00), (0x4301, 0xff), (0x4303, 0x00), (0x3a00, 0x78),
(0x300f, 0x88), (0x3011, 0x28), (0x3a1a, 0x06), (0x3a18, 0x00),
(0x3a19, 0x7a), (0x3a13, 0x54), (0x382e, 0x0f), (0x381a, 0x1a),
(0x401d, 0x02), (0x381c, 0x00), (0x381d, 0x02), (0x381e, 0x04),
(0x381f, 0x38), (0x3820, 0x00), (0x3821, 0x98), (0x3800, 0x01),
(0x3802, 0x00), (0x3803, 0x0a), (0x3804, 0x07), (0x3805, 0x90),
(0x3806, 0x04), (0x3807, 0x40), (0x3808, 0x07), (0x3809, 0x90),
(0x380a, 0x04), (0x380b, 0x40), (0x380e, 0x04), (0x380f, 0x50),
(0x380c, 0x09), (0x380d, 0x74), (0x3810, 0x08), (0x3811, 0x02),
(0x5688, 0x03), (0x5684, 0x07), (0x5685, 0xa0), (0x5686, 0x04),
(0x5687, 0x43), (0x3011, 0x0a), (0x300f, 0x8a), (0x3017, 0x00),
(0x3018, 0x00), (0x4800, 0x24), (0x300e, 0x04), (0x4801, 0x0f),
(0x300f, 0xc3), (0x3010, 0x00), (0x3011, 0x0a), (0x3012, 0x01),
(0x3a0f, 0x40), (0x3a10, 0x38), (0x3a1b, 0x48), (0x3a1e, 0x30),
(0x3a11, 0x90), (0x3a1f, 0x10), (0x3a0e, 0x03), (0x3a0d, 0x04),
(0x3a08, 0x14), (0x3a09, 0xc0), (0x3a0a, 0x11), (0x3a0b, 0x40),
(0x300f, 0xc3), (0x3010, 0x00), (0x3011, 0x0e), (0x3012, 0x02),
(0x380c, 0x09), (0x380d, 0xec), (0x3703, 0x61), (0x3704, 0x44),
(0x3801, 0xd2), (0x3503, 0x17), (0x3500, 0x00), (0x3501, 0x00),
(0x3502, 0x00), (0x350a, 0x00), (0x350b, 0x00), (0x5001, 0x4e),
(0x5000, 0x5f), (0x3008, 0x02)
]

/-- `ov2710_mode_data`.  The source's second entry refers to the (nowhere
declared) spelling `ov2710_setting_30fps_HD_1920_1090`; the table it can
mean is the 1080 one. -/
def ov2710_mode_data : List ModeInfo := [
  { name := "mode_720p_1280_720", id := 0, width := 1280, height := 720,
    reg_data := ov2710_setting_60fps_720P_1280_720 },
  { name := "mode_hd_1920_1080", id := 1, width := 1920, height := 1080,
    reg_data := ov2710_setting_30fps_HD_1920_1080 }]

/-- `ov2710_mode_init_data`. -/
def ov2710_mode_init_data : ModeInfo :=
  { name := "mode_hd_1920_1080", id := 1, width := 1920, height := 1080,
    reg_data := ov2710_setting_30fps_HD_1920_1080 }

/-- `ov2710_hv_flip_bayer_order` (media-bus codes SBGGR10, SGRBG10, SGBRG10,
SRGGB10). -/
def ov2710_hv_flip_bayer_order : List Nat := [0x3007, 0x300a, 0x3009, 0x300f]

/-- Oracle for the sensor: `txOk n` decides whether the `n`-th bus
transaction succeeds, `txVal n` is the raw value a read transaction
delivers, `regulatorRet` is what `regulator_bulk_enable` returns and
`clkRet` what `clk_prepare_enable` returns. -/
structure OvOracle where
  txOk : Nat → Bool
  txVal : Nat → Nat
  regulatorRet : Int
  clkRet : Int

/-- The mutable fields of `struct ov2710_dev` (plus the logical on/off state
of the power resources it owns).  The bus helpers of the driver never write
these fields, which the embedding makes explicit by passing `DevSt`
separately from the trace state `IoSt`. -/
structure DevSt where
  hasResetGpio : Bool
  resetLine : Nat
  regulatorsOn : Bool
  clockOn : Bool
  isEnabled : Bool
  isStreaming : Bool
  modePendingChanges : Bool
  currentMode : ModeInfo
  fmtWidth : Nat
  fmtHeight : Nat
  fmtCode : Nat
  gainVal : Nat
  gainIsNew : Bool
  expVal : Nat
  expIsNew : Bool
  autoGainVal : Nat
  autoExpVal : Nat
  deriving DecidableEq, Repr

/-- `__ov2710_write_reg`: rejects `len > 4`, else one `i2c_master_send` of
`len + 2` bytes; the payload on the wire is `val mod 2^(8*len)` (the low
`len` bytes of `val`, big-endian).  Returns `-EIO` when the send fails. -/
def ov2710_write_reg_n (o : OvOracle) (io : IoSt) (reg len val : Nat) : Int × IoSt :=
  if 4 < len then (-EINVAL, io)
  else
    let io2 : IoSt := { tick := io.tick + 1,
                        events := io.events ++ [Ev.busWrite reg len (val % 2 ^ (8 * len))] }
    if o.txOk io.tick then (0, io2) else (-EIOerr, io2)

/-- `ov2710_write_reg` (8-bit macro). -/
def ov2710_write_reg (o : OvOracle) (io : IoSt) (reg val : Nat) : Int × IoSt :=
  ov2710_write_reg_n o io reg 1 val

/-- `ov2710_write_reg16`. -/
def ov2710_write_reg16 (o : OvOracle) (io : IoSt) (reg val : Nat) : Int × IoSt :=
  ov2710_write_reg_n o io reg 2 val

/-- `ov2710_write_reg24`. -/
def ov2710_write_reg24 (o : OvOracle) (io : IoSt) (reg val : Nat) : Int × IoSt :=
  ov2710_write_reg_n o io reg 3 val

/-- `__ov2710_read_reg`: one two-message `i2c_transfer`; on success delivers
the `len`-byte value (the unread upper bytes of the buffer are zero). -/
def ov2710_read_reg_n (o : OvOracle) (io : IoSt) (reg len : Nat) : Int × Nat × IoSt :=
  if 4 < len then (-EINVAL, 0, io)
  else
    let io2 : IoSt := { tick := io.tick + 1, events := io.events ++ [Ev.busRead reg len] }
    if o.txOk io.tick then (0, o.txVal io.tick % 2 ^ (8 * len), io2) else (-EIOerr, 0, io2)

/-- `ov2710_read_reg` (8-bit macro). -/
def ov2710_read_reg (o : OvOracle) (io : IoSt) (reg : Nat) : Int × Nat × IoSt :=
  ov2710_read_reg_n o io reg 1

/-- `ov2710_read_reg16`. -/
def ov2710_read_reg16 (o : OvOracle) (io : IoSt) (reg : Nat) : Int × Nat × IoSt :=
  ov2710_read_reg_n o io reg 2

/-- `ov2710_read_reg24`. -/
def ov2710_read_reg24 (o : OvOracle) (io : IoSt) (reg : Nat) : Int × Nat × IoSt :=
  ov2710_read_reg_n o io reg 3

/-- `ov2710_mod_reg`: read the register, clear `mask`, OR in `val & mask`,
write the result back.  `mask` and `val` are `u8` parameters in C, hence
the truncations at entry. -/
def ov2710_mod_reg (o : OvOracle) (io : IoSt) (reg mask val : Nat) : Int × IoSt :=
  let mask := mask % 256
  let val := val % 256
  let (ret, readval, io) := ov2710_read_reg o io reg
  if ret < 0 then (ret, io)
  else ov2710_write_reg o io reg ((val &&& mask) ||| (readval &&& (255 ^^^ mask)))

/-- The loop of `ov2710_load_regs`: every entry is written with an 8-bit bus
write (there is no wait-marker handling in this driver; the source carries
`TABLE_WAIT_MS ?? FIXME` comments on its tables); stops at the first
non-zero return. -/
def ov2710_load_regs_go (o : OvOracle) : List RegValue → IoSt → Int × IoSt
  | [], io => (0, io)
  | r :: regs, io =>
    let (ret, io) := ov2710_write_reg o io r.reg_addr r.val
    if ret ≠ 0 then (ret, io) else ov2710_load_regs_go o regs io

/-- `ov2710_load_regs`. -/
def ov2710_load_regs (o : OvOracle) (io : IoSt) (mode : ModeInfo) : Int × IoSt :=
  ov2710_load_regs_go o mode.reg_data io

/-- `ov2710_power_up`: nothing without a reset GPIO; else drive it to 0 and
sleep 5-10 ms. -/
def ov2710_power_up (dev : DevSt) (io : IoSt) : DevSt × IoSt :=
  if !dev.hasResetGpio then (dev, io)
  else ({ dev with resetLine := 0 },
        (io.push (Ev.gpioSet 0 0)).push (Ev.usleepRange 5000 10000))

/-- `ov2710_power_down`: nothing without a reset GPIO; else drive it to 1
and sleep 5-10 ms. -/
def ov2710_power_down (dev : DevSt) (io : IoSt) : DevSt × IoSt :=
  if !dev.hasResetGpio then (dev, io)
  else ({ dev with resetLine := 1 },
        (io.push (Ev.gpioSet 0 1)).push (Ev.usleepRange 5000 10000))

/-- `ov2710_bayer_order`: reads FORMAT1/FORMAT2 and refreshes `fmt.code`.
`hv_flip = (format2 & (BIT(2) << 1)) | (format1 & BIT(2))` takes values in
{0, 4, 8, 12}; indices past the 4-element array are an out-of-bounds read
in the source, modelled by `getD` with default 0. -/
def ov2710_bayer_order (o : OvOracle) (dev : DevSt) (io : IoSt) : Int × DevSt × IoSt :=
  let (ret, format1, io) := ov2710_read_reg o io OV2710_REG_FORMAT1
  if ret < 0 then (ret, dev, io)
  else
    let (ret, format2, io) := ov2710_read_reg o io OV2710_REG_FORMAT2
    if ret < 0 then (ret, dev, io)
    else
      let hv_flip := (format2 &&& (4 <<< 1)) ||| (format1 &&& 4)
      (0, { dev with fmtCode := ov2710_hv_flip_bayer_order.getD hv_flip 0 }, io)

/-- `ov2710_vflip_enable`. -/
def ov2710_vflip_enable (o : OvOracle) (dev : DevSt) (io : IoSt) : Int × DevSt × IoSt :=
  let (ret, io) := ov2710_mod_reg o io OV2710_REG_FORMAT1 4 4
  if ret < 0 then (ret, dev, io) else ov2710_bayer_order o dev io

/-- `ov2710_vflip_disable` (the source passes `BIT(0)`, not 0, as the new
value; masked with BIT(2) it still clears the bit). -/
def ov2710_vflip_disable (o : OvOracle) (dev : DevSt) (io : IoSt) : Int × DevSt × IoSt :=
  let (ret, io) := ov2710_mod_reg o io OV2710_REG_FORMAT1 4 1
  if ret < 0 then (ret, dev, io) else ov2710_bayer_order o dev io

/-- `ov2710_hflip_enable`. -/
def ov2710_hflip_enable (o : OvOracle) (dev : DevSt) (io : IoSt) : Int × DevSt × IoSt :=
  let (ret, io) := ov2710_mod_reg o io OV2710_REG_FORMAT2 4 4
  if ret < 0 then (ret, dev, io) else ov2710_bayer_order o dev io

/-- `ov2710_hflip_disable`. -/
def ov2710_hflip_disable (o : OvOracle) (dev : DevSt) (io : IoSt) : Int × DevSt × IoSt :=
  let (ret, io) := ov2710_mod_reg o io OV2710_REG_FORMAT2 4 1
  if ret < 0 then (ret, dev, io) else ov2710_bayer_order o dev io

/-- `ov2710_test_pattern_set`. -/
def ov2710_test_pattern_set (o : OvOracle) (io : IoSt) (value : Nat) : Int × IoSt :=
  if value = 0 then ov2710_mod_reg o io OV2680_REG_ISP_CTRL00 128 0
  else
    let (ret, io) := ov2710_mod_reg o io OV2680_REG_ISP_CTRL00 3 (value - 1)
    if ret < 0 then (ret, io)
    else
      let (ret, io) := ov2710_mod_reg o io OV2680_REG_ISP_CTRL00 128 128
      if ret < 0 then (ret, io)
      else (0, io)

/-- `ov2710_gain_set`: set/clear the manual-gain bit; when manual and the
control has a fresh value, issue the 16-bit gain write and return 0
unconditionally (the write's return value is assigned to `ret` and then
dropped in the source). -/
def ov2710_gain_set (o : OvOracle) (dev : DevSt) (io : IoSt) (auto_gain : Bool) : Int × IoSt :=
  let (ret, io) := ov2710_mod_reg o io OV2710_REG_R_MANUAL 2 (if auto_gain then 0 else 2)
  if ret < 0 then (ret, io)
  else if auto_gain || !dev.gainIsNew then (0, io)
  else
    let gain := dev.gainVal
    let (_ret, io) := ov2710_write_reg16 o io OV2710_REG_GAIN_PK gain
    (0, io)

/-- `ov2710_exposure_set`: like gain, but the 24-bit write of
`exposure << 4` is returned to the caller. -/
def ov2710_exposure_set (o : OvOracle) (dev : DevSt) (io : IoSt) (auto_exp : Bool) : Int × IoSt :=
  let (ret, io) := ov2710_mod_reg o io OV2710_REG_R_MANUAL 1 (if auto_exp then 0 else 1)
  if ret < 0 then (ret, io)
  else if auto_exp || !dev.expIsNew then (0, io)
  else ov2710_write_reg24 o io OV2710_REG_EXPOSURE_PK_HIGH (dev.expVal <<< 4)

/-- `ov2710_stream_enable`: writes `~OV2710_REG_STREAM_CTRL_SLEEP` (the int
-65 as u32, i.e. byte 0xBF on the wire) to the stream control register. -/
def ov2710_stream_enable (o : OvOracle) (io : IoSt) : Int × IoSt :=
  ov2710_write_reg o io OV2680_REG_STREAM_CTRL (2 ^ 32 - OV2710_REG_STREAM_CTRL_SLEEP - 1)

/-- `ov2710_stream_disable`. -/
def ov2710_stream_disable (o : OvOracle) (io : IoSt) : Int × IoSt :=
  ov2710_write_reg o io OV2680_REG_STREAM_CTRL OV2710_REG_STREAM_CTRL_SLEEP

/-- `ov2710_mode_set`: force manual gain and exposure, play the committed
mode's table, restore auto gain/exposure when those controls are in auto,
then clear `mode_pending_changes`.  Any sub-step failure returns early and
leaves the flag set. -/
def ov2710_mode_set (o : OvOracle) (dev : DevSt) (io : IoSt) : Int × DevSt × IoSt :=
  let (ret, io) := ov2710_gain_set o dev io false
  if ret < 0 then (ret, dev, io)
  else
    let (ret, io) := ov2710_exposure_set o dev io false
    if ret < 0 then (ret, dev, io)
    else
      let (ret, io) := ov2710_load_regs o io dev.currentMode
      if ret < 0 then (ret, dev, io)
      else
        let (ret, io) := if dev.autoGainVal ≠ 0 then ov2710_gain_set o dev io true else (0, io)
        if ret < 0 then (ret, dev, io)
        else
          let (ret, io) :=
            if dev.autoExpVal = V4L2_EXPOSURE_AUTO then ov2710_exposure_set o dev io true
            else (0, io)
          if ret < 0 then (ret, dev, io)
          else (0, { dev with modePendingChanges := false }, io)

/-- `ov2710_power_off`: nothing when already off; else disable the clock,
drive the reset line down, disable the regulators, clear `is_enabled`. -/
def ov2710_power_off (dev : DevSt) (io : IoSt) : Int × DevSt × IoSt :=
  if !dev.isEnabled then (0, dev, io)
  else
    let dev := { dev with clockOn := false }
    let io := io.push Ev.clkOff
    let (dev, io) := ov2710_power_down dev io
    let dev := { dev with regulatorsOn := false }
    let io := io.push Ev.regBulkOff
    (0, { dev with isEnabled := false }, io)

/-- `ov2710_power_on`: nothing when already on; else enable the regulators,
soft-reset over the bus (no reset GPIO) or toggle the reset GPIO, enable
the clock, mark enabled, and briefly toggle streaming to park the lanes.
A soft-reset or clock failure returns without disabling the regulators
(the source has no rollback path). -/
def ov2710_power_on (o : OvOracle) (dev : DevSt) (io : IoSt) : Int × DevSt × IoSt :=
  if dev.isEnabled then (0, dev, io)
  else if o.regulatorRet < 0 then (o.regulatorRet, dev, io)
  else
    let dev := { dev with regulatorsOn := true }
    let io := io.push Ev.regBulkOn
    let (ret, dev, io) : Int × DevSt × IoSt :=
      if !dev.hasResetGpio then
        let (ret, io) := ov2710_write_reg o io OV2710_REG_STREAM_CTRL OV2710_REG_STREAM_CTRL_RESET
        if ret ≠ 0 then (ret, dev, io)
        else (0, dev, io.push (Ev.usleepRange 1000 2000))
      else
        let (dev, io) := ov2710_power_down dev io
        let (dev, io) := ov2710_power_up dev io
        (0, dev, io)
    if ret ≠ 0 then (ret, dev, io)
    else if o.clkRet < 0 then (o.clkRet, dev, io)
    else
      let dev := { dev with clockOn := true }
      let io := io.push Ev.clkOn
      let dev := { dev with isEnabled := true }
      let (_r1, io) := ov2710_stream_enable o io
      let io := io.push (Ev.usleepRange 1000 2000)
      let (_r2, io) := ov2710_stream_disable o io
      (0, dev, io)

/-- `ov2710_s_stream` with `enable` already normalized (`!!enable`). -/
def ov2710_s_stream (o : OvOracle) (dev : DevSt) (io : IoSt) (enable : Bool) : Int × DevSt × IoSt :=
  if dev.isStreaming = enable then (0, dev, io)
  else
    let (ret, dev, io) : Int × DevSt × IoSt :=
      if enable && dev.modePendingChanges then ov2710_mode_set o dev io
      else (0, dev, io)
    if ret < 0 then (ret, dev, io)
    else
      let (ret, io) := if enable then ov2710_stream_enable o io else ov2710_stream_disable o io
      (ret, { dev with isStreaming := enable }, io)

/-- Summed absolute width/height distance of a mode from a request. -/
def mode_dist (m : ModeInfo) (w h : Nat) : Nat :=
  ((m.width : Int) - (w : Int)).natAbs + ((m.height : Int) - (h : Int)).natAbs

/-- Modelled after the framework helper `v4l2_find_nearest_size` (external
to this repository): the catalog entry minimising the summed absolute
dimension distance, later entries winning ties as the kernel helper does. -/
def v4l2_find_nearest_size (w h : Nat) : Option ModeInfo :=
  ov2710_mode_data.foldl
    (fun best m =>
      match best with
      | none => some m
      | some b => if mode_dist m w h ≤ mode_dist b w h then some m else some b)
    none

/-- `ov2710_set_fmt`: non-zero pads are rejected `-EINVAL`; while streaming
the call is rejected `-EBUSY` before anything is looked up or stored; a TRY
format only fills the caller's struct; an ACTIVE format stores the nearest
mode, updates the stored format dimensions and sets the pending flag. -/
def ov2710_set_fmt (dev : DevSt) (pad : Nat) (isTry : Bool) (w h : Nat) : Int × DevSt :=
  if pad ≠ 0 then (-EINVAL, dev)
  else if dev.isStreaming then (-EBUSY, dev)
  else
    match v4l2_find_nearest_size w h with
    | none => (-EINVAL, dev)
    | some mode =>
      if isTry then (0, dev)
      else (0, { dev with currentMode := mode, fmtWidth := mode.width,
                          fmtHeight := mode.height, modePendingChanges := true })

/-- The control ids `ov2710_s_ctrl` handles. -/
inductive CtrlId where
  | autogain
  | gain
  | exposure_auto
  | exposure
  | vflip
  | hflip
  | test_pattern
  deriving DecidableEq, Repr

/-- `ov2710_s_ctrl`: a no-op returning 0 while the sensor is unpowered; the
flip controls are rejected `-EBUSY` while streaming; `ctrl->val` is the
`val` argument, the clustered auto values are the stored `DevSt` copies. -/
def ov2710_s_ctrl (o : OvOracle) (dev : DevSt) (io : IoSt) (id : CtrlId) (val : Nat) :
    Int × DevSt × IoSt :=
  if !dev.isEnabled then (0, dev, io)
  else
    match id with
    | .autogain =>
      let (ret, io) := ov2710_gain_set o dev io (val ≠ 0)
      (ret, dev, io)
    | .gain =>
      let (ret, io) := ov2710_gain_set o dev io (dev.autoGainVal ≠ 0)
      (ret, dev, io)
    | .exposure_auto =>
      let (ret, io) := ov2710_exposure_set o dev io (val ≠ 0)
      (ret, dev, io)
    | .exposure =>
      let (ret, io) := ov2710_exposure_set o dev io (dev.autoExpVal ≠ 0)
      (ret, dev, io)
    | .vflip =>
      if dev.isStreaming then (-EBUSY, dev, io)
      else if val ≠ 0 then ov2710_vflip_enable o dev io
      else ov2710_vflip_disable o dev io
    | .hflip =>
      if dev.isStreaming then (-EBUSY, dev, io)
      else if val ≠ 0 then ov2710_hflip_enable o dev io
      else ov2710_hflip_disable o dev io
    | .test_pattern =>
      let (ret, io) := ov2710_test_pattern_set o io val
      (ret, dev, io)

/-! ## Concrete fixtures used by the claim theorems -/

/-- Every bus transaction succeeds, reads deliver 0. -/
def oAllOk : OvOracle := { txOk := fun _ => true, txVal := fun _ => 0, regulatorRet := 0, clkRet := 0 }

/-- Every bus transaction fails. -/
def oAllFail : OvOracle := { txOk := fun _ => false, txVal := fun _ => 0, regulatorRet := 0, clkRet := 0 }

/-- Bus fine, `clk_prepare_enable` fails with -5. -/
def oClkFail : OvOracle := { txOk := fun _ => true, txVal := fun _ => 0, regulatorRet := 0, clkRet := -5 }

/-- Only the 6th bus transaction (tick 5) fails. -/
def oFailAt5 : OvOracle := { txOk := fun n => decide (n ≠ 5), txVal := fun _ => 0, regulatorRet := 0, clkRet := 0 }

/-- Transactions from tick 4 on fail. -/
def oFailFrom4 : OvOracle := { txOk := fun n => decide (n < 4), txVal := fun _ => 0, regulatorRet := 0, clkRet := 0 }

/-- All transactions succeed, reads deliver 0xAB. -/
def oReadAB : OvOracle := { txOk := fun _ => true, txVal := fun _ => 0xAB, regulatorRet := 0, clkRet := 0 }

/-- Only the 3rd bus transaction (tick 2) fails. -/
def oFailAt2 : OvOracle := { txOk := fun n => decide (n ≠ 2), txVal := fun _ => 0, regulatorRet := 0, clkRet := 0 }

/-- A one-entry register table standing in for a committed mode. -/
def testMode : ModeInfo :=
  { name := "test", id := 0, width := 64, height := 64, reg_data := [⟨0x3103, 0x93⟩] }

/-- Freshly probed, unpowered sensor without a reset GPIO (the control
defaults of `ov2710_v4l2_register`: auto-gain 1, auto-exposure AUTO). -/
def dev0 : DevSt :=
  { hasResetGpio := false, resetLine := 1, regulatorsOn := false, clockOn := false,
    isEnabled := false, isStreaming := false, modePendingChanges := true,
    currentMode := ov2710_mode_init_data, fmtWidth := 1920, fmtHeight := 1080, fmtCode := 0x3007,
    gainVal := 0, gainIsNew := false, expVal := 0, expIsNew := false,
    autoGainVal := 1, autoExpVal := 0 }

/-- Same sensor with a reset GPIO. -/
def devGpio : DevSt := { dev0 with hasResetGpio := true }

/-- Powered, idle, nothing pending. -/
def devOn : DevSt :=
  { dev0 with isEnabled := true, regulatorsOn := true, clockOn := true,
              modePendingChanges := false }

/-- Powered and streaming. -/
def devStr : DevSt := { devOn with isStreaming := true }

/-- Powered, not streaming, a mode change pending; manual gain/exposure
controls without fresh values, so a mode commit costs exactly five bus
transactions (two read-modify-writes plus one table write). -/
def devC2 : DevSt :=
  { dev0 with isEnabled := true, regulatorsOn := true, clockOn := true,
              currentMode := testMode, autoGainVal := 0, autoExpVal := 1 }

/-- Powered sensor with a fresh manual gain value pending. -/
def devGain : DevSt := { devOn with gainIsNew := true, gainVal := 100 }

/-- Panel/bridge bus on which every transfer succeeds (returns 1). -/
def pOk : POracle := { adapterPresent := true, xferRet := fun _ => 1 }

/-- Panel/bridge bus on which every transfer fails with -5. -/
def pFail : POracle := { adapterPresent := true, xferRet := fun _ => -5 }

/-! ## Helper lemmas -/

/-- `ov2710_mode_set` either fails leaving the device fields untouched (the
pending flag in particular still set), or succeeds returning 0 with exactly
`mode_pending_changes` cleared. -/
theorem ov2710_mode_set_cases (o : OvOracle) (dev : DevSt) (io : IoSt) :
    ((ov2710_mode_set o dev io).1 < 0 ∧ (ov2710_mode_set o dev io).2.1 = dev) ∨
    ((ov2710_mode_set o dev io).1 = 0 ∧
      (ov2710_mode_set o dev io).2.1 = { dev with modePendingChanges := false }) := by
  unfold ov2710_mode_set
  repeat' split
  all_goals simp_all

/-! ## Claims -/

set_option maxRecDepth 20000

/-- C1: `ov2710_power_on` does not roll back on failure.  On an unpowered
sensor without a reset GPIO whose soft-reset register write fails, and on
one with a reset GPIO whose clock fails to start, the call returns the
error and `is_enabled` stays false, but the regulators enabled at the start
of the sequence are still enabled afterwards — refuting the claim that
every power resource enabled earlier has been disabled again. -/
theorem power_on_failure_leaks_regulators :
    ((ov2710_power_on oAllFail dev0 io0).1 = -EIOerr ∧
     (ov2710_power_on oAllFail dev0 io0).2.1.isEnabled = false ∧
     (ov2710_power_on oAllFail dev0 io0).2.1.regulatorsOn = true) ∧
    ((ov2710_power_on oClkFail devGpio io0).1 = -5 ∧
     (ov2710_power_on oClkFail devGpio io0).2.1.isEnabled = false ∧
     (ov2710_power_on oClkFail devGpio io0).2.1.regulatorsOn = true) := by
  decide

/-- C4: the panel/bridge single-register write does not retry failures.
With an always-succeeding bus one call issues four identical transfers
(instead of stopping after the first success); with an always-failing bus
the error is propagated after a single transfer (instead of three
attempts). -/
theorem write_reg_retry_loop_inverted :
    wuxga_write_reg pOk io0 4 7
      = (0, { tick := 4, events := [Ev.xfer 4 7, Ev.xfer 4 7, Ev.xfer 4 7, Ev.xfer 4 7] }) ∧
    wuxga_write_reg pFail io0 4 7 = (-5, { tick := 1, events := [Ev.xfer 4 7] }) ∧
    bridge_write_reg pOk io0 4 7
      = (0, { tick := 4, events := [Ev.xfer 4 7, Ev.xfer 4 7, Ev.xfer 4 7, Ev.xfer 4 7] }) ∧
    bridge_write_reg pFail io0 4 7 = (-5, { tick := 1, events := [Ev.xfer 4 7] }) := by
  decide

/-- C3: a delay-sentinel table entry does cause bus I/O.  Playing the first
two entries of the bridge's own `display_table` (the second, `(0, 5)`, is
commented "Delay time" in the source) sleeps and then still writes address
0 to the bus; the panel player writes the sentinel entry before sleeping;
the sensor's `ov2710_load_regs` writes it and never sleeps at all. -/
theorem table_players_write_delay_sentinel :
    (bridge_write_table pOk (display_table.take 2) io0).2.events
      = [Ev.xfer 2 1, Ev.xfer 2 1, Ev.xfer 2 1, Ev.xfer 2 1,
         Ev.msleep 5, Ev.xfer 0 5, Ev.xfer 0 5, Ev.xfer 0 5, Ev.xfer 0 5] ∧
    (wuxga_write_table pOk [(0, 5)] io0).2.events
      = [Ev.xfer 0 5, Ev.xfer 0 5, Ev.xfer 0 5, Ev.xfer 0 5, Ev.msleep 5] ∧
    (ov2710_load_regs_go oAllOk [⟨0, 5⟩] io0).2.events = [Ev.busWrite 0 1 5] := by
  decide

/-- C2 counterexample: on a powered, non-streaming sensor with a pending
mode change, when the whole mode commit succeeds but the final
stream-enable register write (bus transaction 5) fails, `ov2710_s_stream`
returns the error yet sets `is_streaming` to true and has cleared the
pending flag — refuting the claim that any sub-step failure leaves
`is_streaming` false with the pending flag still set. -/
theorem s_stream_final_write_failure_marks_streaming :
    (ov2710_s_stream oFailAt5 devC2 io0 true).1 = -EIOerr ∧
    (ov2710_s_stream oFailAt5 devC2 io0 true).2.1.isStreaming = true ∧
    (ov2710_s_stream oFailAt5 devC2 io0 true).2.1.modePendingChanges = false := by
  decide

/-- C2 amended: starting a stream on a non-streaming powered device with a
pending mode change, a failure inside the mode commit (forcing manual
gain/exposure, playing the table, restoring auto) returns that error with
the device not streaming and the pending flag still set; but when the
commit succeeds, the result of the final stream-enable write is returned
while `is_streaming` is set to true and the pending flag is cleared
regardless of that write's outcome. -/
theorem s_stream_start_failure_modes (o : OvOracle) (dev : DevSt) (io : IoSt)
    (_hen : dev.isEnabled = true) (hs : dev.isStreaming = false)
    (hp : dev.modePendingChanges = true) :
    ((ov2710_mode_set o dev io).1 < 0 →
      ov2710_s_stream o dev io true = ov2710_mode_set o dev io ∧
      (ov2710_s_stream o dev io true).2.1.isStreaming = false ∧
      (ov2710_s_stream o dev io true).2.1.modePendingChanges = true) ∧
    ((ov2710_mode_set o dev io).1 = 0 →
      ov2710_s_stream o dev io true
        = ((ov2710_stream_enable o (ov2710_mode_set o dev io).2.2).1,
           { dev with modePendingChanges := false, isStreaming := true },
           (ov2710_stream_enable o (ov2710_mode_set o dev io).2.2).2)) := by
  have hcases := ov2710_mode_set_cases o dev io
  rcases hm : ov2710_mode_set o dev io with ⟨ret, dev', io'⟩
  rw [hm] at hcases
  constructor
  · intro hlt
    simp only at hlt
    have hdev : dev' = dev := by
      rcases hcases with ⟨_, h⟩ | ⟨h0, _⟩
      · exact h
      · simp only at h0; omega
    unfold ov2710_s_stream
    simp [hs, hp, hm, hlt, hdev, not_lt_of_lt hlt]
  · intro h0
    simp only at h0
    have hdev : dev' = { dev with modePendingChanges := false } := by
      rcases hcases with ⟨hlt, _⟩ | ⟨_, h⟩
      · simp only at hlt; omega
      · exact h
    unfold ov2710_s_stream
    rcases he : ov2710_stream_enable o io' with ⟨r2, io2⟩
    simp [hs, hp, hm, h0, hdev, he]

/-- C2 witness: with the bus failing from transaction 4 on (the table
write), the mode commit fails and the claim-theorem's first branch applies
at a concrete input. -/
theorem s_stream_start_failure_modes_witness :
    ov2710_s_stream oFailFrom4 devC2 io0 true = ov2710_mode_set oFailFrom4 devC2 io0 ∧
    (ov2710_s_stream oFailFrom4 devC2 io0 true).2.1.isStreaming = false ∧
    (ov2710_s_stream oFailFrom4 devC2 io0 true).2.1.modePendingChanges = true :=
  (s_stream_start_failure_modes oFailFrom4 devC2 io0 rfl rfl rfl).1 (by decide)

/-- C5 counterexample: stopping a streaming sensor on a bus where the
stream-disable write fails makes `ov2710_s_stream` return `-EIO` — the bus
error is propagated to the caller, not swallowed — although the device is
indeed left not streaming. -/
theorem stream_stop_returns_bus_error :
    (ov2710_s_stream oAllFail devStr io0 false).1 = -EIOerr ∧
    (ov2710_s_stream oAllFail devStr io0 false).2.1.isStreaming = false := by
  decide

/-- C5 amended: `stream_stop` on a streaming device always clears
`is_streaming`, even when the stream-disable register write fails, but it
returns that write's result to the caller instead of swallowing bus
errors. -/
theorem stream_stop_clears_streaming_returns_write_result
    (o : OvOracle) (dev : DevSt) (io : IoSt) (hs : dev.isStreaming = true) :
    ov2710_s_stream o dev io false
      = ((ov2710_stream_disable o io).1, { dev with isStreaming := false },
         (ov2710_stream_disable o io).2) := by
  unfold ov2710_s_stream
  rcases hd : ov2710_stream_disable o io with ⟨r, io2⟩
  simp [hs, hd]

/-- C5 witness: the amended theorem at a concrete streaming device on an
always-failing bus. -/
theorem stream_stop_clears_streaming_returns_write_result_witness :
    ov2710_s_stream oAllFail devStr io0 false
      = ((ov2710_stream_disable oAllFail io0).1, { devStr with isStreaming := false },
         (ov2710_stream_disable oAllFail io0).2) :=
  stream_stop_clears_streaming_returns_write_result oAllFail devStr io0 rfl

/-- C6: while the device is streaming, `set_fmt` (on the sensor's only pad,
pad 0) returns `-EBUSY` with the device state — committed mode, pending
flag, stored format — exactly unchanged, and a powered device rejects
vflip/hflip control writes with `-EBUSY`, the device state and the bus
trace (hence the flip registers) exactly unchanged. -/
theorem set_fmt_and_flips_busy_while_streaming
    (o : OvOracle) (dev : DevSt) (io : IoSt) (isTry : Bool) (w h val : Nat)
    (hs : dev.isStreaming = true) :
    ov2710_set_fmt dev 0 isTry w h = (-EBUSY, dev) ∧
    (dev.isEnabled = true →
      ov2710_s_ctrl o dev io CtrlId.vflip val = (-EBUSY, dev, io) ∧
      ov2710_s_ctrl o dev io CtrlId.hflip val = (-EBUSY, dev, io)) := by
  constructor
  · unfold ov2710_set_fmt
    simp [hs]
  · intro he
    unfold ov2710_s_ctrl
    simp [hs, he]

/-- C6 witness: the theorem at a concrete powered streaming device. -/
theorem set_fmt_and_flips_busy_while_streaming_witness :
    ov2710_set_fmt devStr 0 false 1920 1080 = (-EBUSY, devStr) ∧
    ov2710_s_ctrl oAllOk devStr io0 CtrlId.vflip 1 = (-EBUSY, devStr, io0) ∧
    ov2710_s_ctrl oAllOk devStr io0 CtrlId.hflip 1 = (-EBUSY, devStr, io0) :=
  ⟨(set_fmt_and_flips_busy_while_streaming oAllOk devStr io0 false 1920 1080 1 rfl).1,
   ((set_fmt_and_flips_busy_while_streaming oAllOk devStr io0 false 1920 1080 1 rfl).2 rfl).1,
   ((set_fmt_and_flips_busy_while_streaming oAllOk devStr io0 false 1920 1080 1 rfl).2 rfl).2⟩

/-- C7: `ov2710_s_stream` is idempotent in both directions: when the device
is already in the requested streaming state the call returns 0 with the
device state and the bus trace (no writes at all) exactly unchanged. -/
theorem s_stream_idempotent (o : OvOracle) (dev : DevSt) (io : IoSt) (enable : Bool)
    (h : dev.isStreaming = enable) :
    ov2710_s_stream o dev io enable = (0, dev, io) := by
  unfold ov2710_s_stream
  simp [h]

/-- C7 witness: a second stream-start while streaming and a stream-stop
while stopped, both at concrete devices. -/
theorem s_stream_idempotent_witness :
    ov2710_s_stream oAllOk devStr io0 true = (0, devStr, io0) ∧
    ov2710_s_stream oAllOk devOn io0 false = (0, devOn, io0) :=
  ⟨s_stream_idempotent oAllOk devStr io0 true rfl,
   s_stream_idempotent oAllOk devOn io0 false rfl⟩

/-- C9: both power entry points are idempotent at the interface:
`ov2710_power_on` on an already-enabled sensor and `ov2710_power_off` on an
already-disabled one return 0 with the device state and the bus/power trace
exactly unchanged (no bus transaction, no resource transition). -/
theorem power_on_off_idempotent (o : OvOracle) (dev : DevSt) (io : IoSt) :
    (dev.isEnabled = true → ov2710_power_on o dev io = (0, dev, io)) ∧
    (dev.isEnabled = false → ov2710_power_off dev io = (0, dev, io)) := by
  constructor
  · intro h
    unfold ov2710_power_on
    simp [h]
  · intro h
    unfold ov2710_power_off
    simp [h]

/-- C9 witness: the theorem at a powered and at an unpowered device. -/
theorem power_on_off_idempotent_witness :
    ov2710_power_on oAllOk devOn io0 = (0, devOn, io0) ∧
    ov2710_power_off dev0 io0 = (0, dev0, io0) :=
  ⟨(power_on_off_idempotent oAllOk devOn io0).1 rfl,
   (power_on_off_idempotent oAllOk dev0 io0).2 rfl⟩

/-- C8: when the read succeeds, `ov2710_mod_reg` performs exactly one read
and one write-back, and the byte written agrees with the freshly read
register value `b` on every bit outside the mask and with the requested
value on every bit inside the mask. -/
theorem mod_reg_preserves_unmasked_bits (o : OvOracle) (io : IoSt) (reg mask val : Nat)
    (hmask : mask < 256) (hval : val < 256) (hok : o.txOk io.tick = true) :
    (ov2710_mod_reg o io reg mask val).2.events
      = io.events
        ++ [Ev.busRead reg 1,
            Ev.busWrite reg 1
              (((val &&& mask) ||| (o.txVal io.tick % 256 &&& (255 ^^^ mask))) % 256)] ∧
    ∀ i, i < 8 →
      ((((val &&& mask) ||| (o.txVal io.tick % 256 &&& (255 ^^^ mask))) % 256).testBit i
        = if mask.testBit i then val.testBit i
          else (o.txVal io.tick % 256).testBit i) := by
  constructor
  · unfold ov2710_mod_reg ov2710_read_reg ov2710_read_reg_n ov2710_write_reg ov2710_write_reg_n
    simp [hok, Nat.mod_eq_of_lt hmask, Nat.mod_eq_of_lt hval]
    split <;> simp
  · intro i hi
    have h255 : (255 : Nat) = 2 ^ 8 - 1 := rfl
    have h256 : (256 : Nat) = 2 ^ 8 := rfl
    rw [h255, h256, Nat.testBit_mod_two_pow, Nat.testBit_or, Nat.testBit_and,
        Nat.testBit_and, Nat.testBit_xor, Nat.testBit_two_pow_sub_one]
    simp only [hi, decide_True, Bool.true_and, Bool.true_xor]
    cases hb : mask.testBit i <;> simp

/-- C8 witness: the theorem at register FORMAT1, mask and value `BIT(2)`,
on a bus whose read delivers 0xAB. -/
theorem mod_reg_preserves_unmasked_bits_witness :
    (ov2710_mod_reg oReadAB io0 OV2680_REG_FORMAT1 4 4).2.events
      = io0.events
        ++ [Ev.busRead OV2680_REG_FORMAT1 1,
            Ev.busWrite OV2680_REG_FORMAT1 1
              (((4 &&& 4) ||| (oReadAB.txVal io0.tick % 256 &&& (255 ^^^ 4))) % 256)] ∧
    ∀ i, i < 8 →
      ((((4 &&& 4) ||| (oReadAB.txVal io0.tick % 256 &&& (255 ^^^ 4))) % 256).testBit i
        = if (4 : Nat).testBit i then (4 : Nat).testBit i
          else (oReadAB.txVal io0.tick % 256).testBit i) :=
  mod_reg_preserves_unmasked_bits oReadAB io0 OV2680_REG_FORMAT1 4 4
    (by decide) (by decide) rfl

/-- C10: with auto-gain off and a fresh manual gain value pending,
`ov2710_gain_set` issues the 16-bit gain write (it is the last event of the
trace) and returns 0 whatever that write's outcome: only the first two bus
transactions (the read-modify-write of the manual bit) are required to
succeed, the gain write's own outcome is unconstrained and invisible. -/
theorem gain_set_swallows_manual_write_error (o : OvOracle) (dev : DevSt) (io : IoSt)
    (hnew : dev.gainIsNew = true)
    (h0 : o.txOk io.tick = true) (h1 : o.txOk (io.tick + 1) = true) :
    (ov2710_gain_set o dev io false).1 = 0 ∧
    (ov2710_gain_set o dev io false).2.events
      = io.events
        ++ [Ev.busRead OV2710_REG_R_MANUAL 1,
            Ev.busWrite OV2710_REG_R_MANUAL 1
              (((2 &&& 2) ||| (o.txVal io.tick % 256 &&& (255 ^^^ 2))) % 256),
            Ev.busWrite OV2710_REG_GAIN_PK 2 (dev.gainVal % 2 ^ (8 * 2))] := by
  unfold ov2710_gain_set ov2710_mod_reg ov2710_read_reg ov2710_write_reg
    ov2710_write_reg16 ov2710_read_reg_n ov2710_write_reg_n
  by_cases h2 : o.txOk (io.tick + 1 + 1) <;> simp [h0, h1, h2, hnew]

/-- C10 witness: the theorem on a bus where precisely the gain-value write
(transaction 2) fails; the call still returns 0 and the write appears in
the trace. -/
theorem gain_set_swallows_manual_write_error_witness :
    (ov2710_gain_set oFailAt2 devGain io0 false).1 = 0 ∧
    (ov2710_gain_set oFailAt2 devGain io0 false).2.events
      = io0.events
        ++ [Ev.busRead OV2710_REG_R_MANUAL 1,
            Ev.busWrite OV2710_REG_R_MANUAL 1
              (((2 &&& 2) ||| (oFailAt2.txVal io0.tick % 256 &&& (255 ^^^ 2))) % 256),
            Ev.busWrite OV2710_REG_GAIN_PK 2 (devGain.gainVal % 2 ^ (8 * 2))] :=
  gain_set_swallows_manual_write_error oFailAt2 devGain io0 rfl rfl rfl
